import Mathlib

/-!
Shallow embedding of the cash-flow profile engine (portfolio.py).

Python floats are modelled as rationals (ℚ); Python lists as `List ℚ`.
The profile shape functions `_linear`, `_step`, `_single` are embedded
concretely; `_sigmoid` involves the transcendental `math.exp` / `math.log`,
so the series generators `_calculate_qtr`, `_calculate_dg_qtr` and
`_calculate_vc_qtr` are embedded exactly as in the source: parameterised by
the profile function `f` they receive (the source passes the method resolved
from the `function` attribute as the argument `f`).  Theorems quantified over
`f` therefore cover every function variant, sigmoid included.
-/

/-- Embeds `discount(val, discount_rate, period_n)` from portfolio.py:
`val / ((1 + discount_rate) ** period_n)`. -/
def discount (val discount_rate : ℚ) (period_n : ℕ) : ℚ :=
  val / ((1 + discount_rate) ^ period_n)

/-- The state of a constructed `CashFlow` instance: exactly the attributes
set by `CashFlow.__init__`.  `discount_rate` holds the stored quarterly rate
(the constructor divides the annual input by 4).  The `id` is modelled as a
string (Python stores a UUID and serialises it with `str`). -/
structure CashFlow where
  delay_qtrs : ℕ
  digital_gallons : ℚ
  discount_rate : ℚ
  function : String
  id : String
  is_cost : Bool
  max_amt : ℚ
  name : String
  scale_up_qtrs : ℤ
  start_amt : ℚ
  vc_per_dg : ℚ
  tot_qtrs : ℕ
deriving DecidableEq

/-- The arguments of `CashFlow.__init__` as passed by a caller.
`flow_id = none` models a call that omits the optional `flow_id` argument
and therefore receives the default. -/
structure CashFlowArgs where
  delay_qtrs : ℕ
  digital_gallons : ℚ
  discount_rate : ℚ
  is_cost : Bool
  max_amt : ℚ
  scale_up_qtrs : ℤ
  function : String
  vc_per_dg : ℚ
  start_amt : ℚ := 0
  name : String := ""
  flow_id : Option String := none
  tot_qtrs : ℕ := 12
deriving DecidableEq

/-- In Python, the default value `flow_id=uuid.uuid4()` is evaluated ONCE,
when the `def __init__` line is executed at class-definition time; every
construction that omits `flow_id` receives this same value.  We model that
single value as an opaque constant string. -/
def defaultFlowId : String := "uuid4-evaluated-once-at-def-time"

/-- Embeds `CashFlow.__init__`: raises (models as `Except.error`) when
`function != 'step' and scale_up_qtrs < 2`, otherwise stores the attributes,
converting the annual `discount_rate` to quarterly by dividing by 4 and
taking the shared default for an omitted `flow_id`. -/
def CashFlow.init (a : CashFlowArgs) : Except String CashFlow :=
  if a.function ≠ "step" ∧ a.scale_up_qtrs < 2 then
    Except.error "the total number of quarters must be at least one"
  else
    Except.ok
      { delay_qtrs := a.delay_qtrs
        digital_gallons := a.digital_gallons
        discount_rate := a.discount_rate / 4
        function := a.function
        id := a.flow_id.getD defaultFlowId
        is_cost := a.is_cost
        max_amt := a.max_amt
        name := a.name
        scale_up_qtrs := a.scale_up_qtrs
        start_amt := a.start_amt
        vc_per_dg := a.vc_per_dg
        tot_qtrs := a.tot_qtrs }

/-- Embeds `self.periods_index = list(range(tot_qtrs))`. -/
def CashFlow.periods_index (cf : CashFlow) : List ℕ :=
  List.range cf.tot_qtrs

/-- Embeds `self.periods = list(range(1, tot_qtrs + 1))`. -/
def CashFlow.periods (cf : CashFlow) : List ℕ :=
  (List.range cf.tot_qtrs).map (fun q => q + 1)

/-- Embeds `CashFlow._linear`: `m = (max_amt - start_amt) / scale_up_qtrs`,
`b = -m * delay_qtrs`, returns `min(m * x + b, max_amt - start_amt)`. -/
def CashFlow.linear (cf : CashFlow) (x : ℕ) (max_amt start_amt : ℚ) : ℚ :=
  let m := (max_amt - start_amt) / (cf.scale_up_qtrs : ℚ)
  let b := -m * (cf.delay_qtrs : ℚ)
  min (m * (x : ℚ) + b) (max_amt - start_amt)

/-- Embeds `CashFlow._single`: `max_amt - start_amt` exactly when
`x == delay_qtrs`, else `-1 * start_amt`. -/
def CashFlow.single (cf : CashFlow) (x : ℕ) (max_amt start_amt : ℚ) : ℚ :=
  if x = cf.delay_qtrs then max_amt - start_amt else -1 * start_amt

/-- Embeds `CashFlow._step`: always `max_amt - start_amt`. -/
def CashFlow.step (_cf : CashFlow) (_x : ℕ) (max_amt start_amt : ℚ) : ℚ :=
  max_amt - start_amt

/-- Embeds `CashFlow._discounted(val, period_n)`:
`discount(val, self.discount_rate, period_n)`. -/
def CashFlow.discountedVal (cf : CashFlow) (val : ℚ) (period_n : ℕ) : ℚ :=
  discount val cf.discount_rate period_n

/-- Embeds `CashFlow._calculate_qtr(f, discounted)`: for each
`quarter_n` in `periods_index`, append 0 when `quarter_n < delay_qtrs`,
otherwise `multiplier * (f(quarter_n, max_amt, start_amt) + start_amt)`,
discounted at `quarter_n` when `discounted` is set. -/
def CashFlow.calculate_qtr (cf : CashFlow) (f : ℕ → ℚ → ℚ → ℚ)
    (discounted : Bool) : List ℚ :=
  cf.periods_index.map (fun quarter_n =>
    if quarter_n < cf.delay_qtrs then 0
    else
      let multiplier : ℚ := if cf.is_cost then -1 else 1
      let amt := f quarter_n cf.max_amt cf.start_amt + cf.start_amt
      let amt := multiplier * amt
      if discounted then cf.discountedVal amt quarter_n else amt)

/-- Embeds `CashFlow._calculate_dg_qtr(f, discounted)`: same walk over
`periods_index`, with `digital_gallons` for the target, `start_gallons = 0`,
and no cost multiplier. -/
def CashFlow.calculate_dg_qtr (cf : CashFlow) (f : ℕ → ℚ → ℚ → ℚ)
    (discounted : Bool) : List ℚ :=
  cf.periods_index.map (fun quarter_n =>
    if quarter_n < cf.delay_qtrs then 0
    else
      let start_gallons : ℚ := 0
      let amt := f quarter_n cf.digital_gallons start_gallons
      if discounted then cf.discountedVal amt quarter_n else amt)

/-- Embeds `np.trapz([y0, y1], (x0, x1))` for a two-sample trapezoid:
`(x1 - x0) * (y0 + y1) / 2`. -/
def np_trapz (y0 y1 x0 x1 : ℚ) : ℚ :=
  (x1 - x0) * (y0 + y1) / 2

/-- Embeds `CashFlow._calculate_vc_qtr(discounted)`.  The source reads the
digital-gallon series through `getattr(self, 'discounted_dg_qtr' if
discounted else 'non_discounted_dg_qtr')`, which dispatches on the instance
`function`; as everywhere else this resolved profile function is the
parameter `f`.  The loop `for index, step in
list(enumerate(zip(self.periods_index, self.periods)))[:-1]` runs `index`
over `0 .. tot_qtrs - 2` with `step = (index, index + 1)`; Python's in-range
list indexing `dg_cost[index]` is modelled with `List.getD`. -/
def CashFlow.calculate_vc_qtr (cf : CashFlow) (f : ℕ → ℚ → ℚ → ℚ)
    (discounted : Bool) : List ℚ :=
  let unit_multiplier : ℚ := 10 ^ 6
  let dg_to_variable_cost : ℚ → ℚ := fun v => -1 * v * unit_multiplier * cf.vc_per_dg
  let dg_cost : List ℚ := (cf.calculate_dg_qtr f discounted).map dg_to_variable_cost
  let steps : List ℚ := (List.range (cf.tot_qtrs - 1)).map (fun index =>
    np_trapz (dg_cost.getD index 0) (dg_cost.getD (index + 1) 0)
      ((index : ℚ)) (((index + 1 : ℕ) : ℚ)))
  0 :: steps

/-- The serialisable record produced by `CashFlow.to_json`: exactly its
eleven keys. `vc_per_dg` is NOT among them, and no derived series is. -/
structure CashFlowJson where
  delay_qtrs : ℕ
  digital_gallons : ℚ
  discount_rate : ℚ
  flow_id : String
  function : String
  is_cost : Bool
  name : String
  start_amt : ℚ
  max_amt : ℚ
  scale_up_qtrs : ℤ
  tot_qtrs : ℕ
deriving DecidableEq

/-- Embeds `CashFlow.to_json`: each key copied from the instance attribute
of the same name (`flow_id` from `str(self.id)`). -/
def CashFlow.to_json (cf : CashFlow) : CashFlowJson :=
  { delay_qtrs := cf.delay_qtrs
    digital_gallons := cf.digital_gallons
    discount_rate := cf.discount_rate
    flow_id := cf.id
    function := cf.function
    is_cost := cf.is_cost
    name := cf.name
    start_amt := cf.start_amt
    max_amt := cf.max_amt
    scale_up_qtrs := cf.scale_up_qtrs
    tot_qtrs := cf.tot_qtrs }

/-- Embeds `combine_flows(flows, attribute)`: extract the named series from
every flow (`getattr` modelled as the selector function `attr`), then
`[sum(values) for values in zip(*values)]`.  Python's `zip(*values)` yields,
for each index `i` below the minimum length of the extracted lists, the
tuple of `i`-th elements, and yields nothing when `values` is empty; so the
result has that minimum length and element `i` is the sum of the `i`-th
elements. -/
def combine_flows {α : Type} (flows : List α) (attr : α → List ℚ) : List ℚ :=
  match flows.map attr with
  | [] => []
  | v :: vs =>
    let n := vs.foldl (fun acc l => min acc l.length) v.length
    (List.range n).map (fun i => ((v :: vs).map (fun l => l.getD i 0)).sum)

/-- The unit-conversion constant of the variable-cost derivation
(`unit_multiplier = 10**6` in the source, "unitScale" in the spec). -/
def unit_scale : ℚ := 10 ^ 6

/-- Spec-side definition (for comparison): `dgCost[p] = -1 * unitScale *
quantitySeries[p] * vc_per_dg` over the NON-discounted quantity series. -/
def specDgCost (cf : CashFlow) (f : ℕ → ℚ → ℚ → ℚ) (p : ℕ) : ℚ :=
  -1 * unit_scale * ((cf.calculate_dg_qtr f false).getD p 0) * cf.vc_per_dg

/-- Spec-side definition (for comparison): the quantity-cost sample at `p`,
discounted at its own absolute period index `p`. -/
def specDgCostDisc (cf : CashFlow) (f : ℕ → ℚ → ℚ → ℚ) (p : ℕ) : ℚ :=
  -1 * unit_scale *
    discount ((cf.calculate_dg_qtr f false).getD p 0) cf.discount_rate p *
    cf.vc_per_dg

/-- Concrete instance used by witnesses: a delayed step-profile flow. -/
def cfA : CashFlow :=
  { delay_qtrs := 2
    digital_gallons := 5
    discount_rate := 1
    function := "step"
    id := "a"
    is_cost := false
    max_amt := 10
    name := ""
    scale_up_qtrs := 4
    start_amt := 3
    vc_per_dg := 1
    tot_qtrs := 3 }

/-- Helper: indexing a map over `List.range`. -/
theorem getD_map_range (g : ℕ → ℚ) (n p : ℕ) :
    ((List.range n).map g).getD p 0 = if p < n then g p else 0 := by
  rcases Nat.lt_or_ge p n with h | h
  · rw [List.getD_eq_getElem _ _ (by simpa using h), if_pos h]
    simp
  · rw [List.getD_eq_default _ _ (by simpa using h), if_neg (Nat.not_lt.mpr h)]

/-- Helper: in-range indexing commutes with `List.map`. -/
theorem getD_map_of_lt (g : ℚ → ℚ) (l : List ℚ) (p : ℕ) (h : p < l.length) :
    (l.map g).getD p 0 = g (l.getD p 0) := by
  rw [List.getD_eq_getElem _ _ (by simpa using h), List.getD_eq_getElem _ _ h,
    List.getElem_map]

/-- Helper: the discounted amount series is the pointwise discount of the
non-discounted one. -/
theorem calculate_qtr_true_eq (cf : CashFlow) (f : ℕ → ℚ → ℚ → ℚ) (p : ℕ) :
    (cf.calculate_qtr f true).getD p 0
      = discount ((cf.calculate_qtr f false).getD p 0) cf.discount_rate p := by
  unfold CashFlow.calculate_qtr CashFlow.periods_index
  rw [getD_map_range, getD_map_range]
  by_cases hp : p < cf.tot_qtrs
  · rw [if_pos hp, if_pos hp]
    by_cases hd : p < cf.delay_qtrs
    · rw [if_pos hd, if_pos hd]
      simp [discount]
    · rw [if_neg hd, if_neg hd]
      simp [CashFlow.discountedVal]
  · rw [if_neg hp, if_neg hp]
    simp [discount]

/-- Helper: the discounted quantity series is the pointwise discount of the
non-discounted one. -/
theorem calculate_dg_qtr_true_eq (cf : CashFlow) (f : ℕ → ℚ → ℚ → ℚ) (p : ℕ) :
    (cf.calculate_dg_qtr f true).getD p 0
      = discount ((cf.calculate_dg_qtr f false).getD p 0) cf.discount_rate p := by
  unfold CashFlow.calculate_dg_qtr CashFlow.periods_index
  rw [getD_map_range, getD_map_range]
  by_cases hp : p < cf.tot_qtrs
  · rw [if_pos hp, if_pos hp]
    by_cases hd : p < cf.delay_qtrs
    · rw [if_pos hd, if_pos hd]
      simp [discount]
    · rw [if_neg hd, if_neg hd]
      simp [CashFlow.discountedVal]
  · rw [if_neg hp, if_neg hp]
    simp [discount]

/-- Helper: length of the amount series. -/
theorem calculate_qtr_length (cf : CashFlow) (f : ℕ → ℚ → ℚ → ℚ)
    (discounted : Bool) : (cf.calculate_qtr f discounted).length = cf.tot_qtrs := by
  simp [CashFlow.calculate_qtr, CashFlow.periods_index]

/-- Helper: length of the quantity series. -/
theorem calculate_dg_qtr_length (cf : CashFlow) (f : ℕ → ℚ → ℚ → ℚ)
    (discounted : Bool) : (cf.calculate_dg_qtr f discounted).length = cf.tot_qtrs := by
  simp [CashFlow.calculate_dg_qtr, CashFlow.periods_index]

/-- C1: for every CashFlow, every profile function, either discounting mode,
and every period `p < delay_qtrs`, both the amount series
(`_calculate_qtr`) and the quantity series (`_calculate_dg_qtr`) are 0 at
`p`, and each series has length exactly `tot_qtrs`. -/
theorem delay_zero_invariant (cf : CashFlow) (f : ℕ → ℚ → ℚ → ℚ)
    (discounted : Bool) (p : ℕ) (hp : p < cf.delay_qtrs) :
    (cf.calculate_qtr f discounted).length = cf.tot_qtrs ∧
    (cf.calculate_dg_qtr f discounted).length = cf.tot_qtrs ∧
    (cf.calculate_qtr f discounted).getD p 0 = 0 ∧
    (cf.calculate_dg_qtr f discounted).getD p 0 = 0 := by
  refine ⟨calculate_qtr_length cf f discounted, calculate_dg_qtr_length cf f discounted, ?_, ?_⟩
  · unfold CashFlow.calculate_qtr CashFlow.periods_index
    rw [getD_map_range]
    split <;> simp [hp]
  · unfold CashFlow.calculate_dg_qtr CashFlow.periods_index
    rw [getD_map_range]
    split <;> simp [hp]

/-- C1 witness: instantiated at `cfA` (delay 2), period 1, step profile,
discounted. -/
theorem delay_zero_invariant_witness :
    (cfA.calculate_qtr cfA.step true).length = cfA.tot_qtrs ∧
    (cfA.calculate_dg_qtr cfA.step true).length = cfA.tot_qtrs ∧
    (cfA.calculate_qtr cfA.step true).getD 1 0 = 0 ∧
    (cfA.calculate_dg_qtr cfA.step true).getD 1 0 = 0 :=
  delay_zero_invariant cfA cfA.step true 1 (by decide)

/-- C8: `discount` is exactly `val / (1 + rate) ^ periodIndex`, and at
period index 0 it returns the value unchanged, for every value and rate. -/
theorem discount_period_zero_identity (v r : ℚ) (n : ℕ) :
    discount v r n = v / ((1 + r) ^ n) ∧ discount v r 0 = v := by
  constructor
  · rfl
  · simp [discount]

/-- C10: for every CashFlow, every profile function and every period index,
the discounted amount series is the elementwise discount of the
non-discounted amount series at the stored quarterly rate and the absolute
period index, and likewise for the quantity series. -/
theorem discounted_series_relation (cf : CashFlow) (f : ℕ → ℚ → ℚ → ℚ) (p : ℕ) :
    (cf.calculate_qtr f true).getD p 0
      = discount ((cf.calculate_qtr f false).getD p 0) cf.discount_rate p ∧
    (cf.calculate_dg_qtr f true).getD p 0
      = discount ((cf.calculate_dg_qtr f false).getD p 0) cf.discount_rate p :=
  ⟨calculate_qtr_true_eq cf f p, calculate_dg_qtr_true_eq cf f p⟩

/-- Concrete instance with `tot_qtrs = 0` (the constructor accepts any
total): its variable-cost series is `[0]`, of length 1. -/
def cfZero : CashFlow :=
  { delay_qtrs := 0
    digital_gallons := 1
    discount_rate := 0
    function := "step"
    id := "z"
    is_cost := false
    max_amt := 1
    name := ""
    scale_up_qtrs := 4
    start_amt := 0
    vc_per_dg := 1
    tot_qtrs := 0 }

/-- Concrete instance with a nonzero quarterly rate (stored rate 1, i.e.
annual 4), no delay, two periods: used to separate per-sample discounting
from post-integration discounting. -/
def cfC : CashFlow :=
  { delay_qtrs := 0
    digital_gallons := 1
    discount_rate := 1
    function := "step"
    id := "c"
    is_cost := true
    max_amt := 1
    name := ""
    scale_up_qtrs := 4
    start_amt := 0
    vc_per_dg := 1
    tot_qtrs := 2 }

/-- Helper: element `n + 1` of the variable-cost series is the unit-width
trapezoid of the two adjacent quantity-cost samples taken from whichever
quantity series (`discounted` or not) the source reads. -/
theorem calculate_vc_qtr_getD_succ (cf : CashFlow) (f : ℕ → ℚ → ℚ → ℚ)
    (discounted : Bool) (n : ℕ) (h : n + 1 < cf.tot_qtrs) :
    (cf.calculate_vc_qtr f discounted).getD (n + 1) 0
      = ((-1 * ((cf.calculate_dg_qtr f discounted).getD n 0) * (10 ^ 6 : ℚ) * cf.vc_per_dg)
          + (-1 * ((cf.calculate_dg_qtr f discounted).getD (n + 1) 0) * (10 ^ 6 : ℚ) * cf.vc_per_dg)) / 2 := by
  simp only [CashFlow.calculate_vc_qtr]
  rw [List.getD_cons_succ, getD_map_range, if_pos (by omega : n < cf.tot_qtrs - 1),
    getD_map_of_lt _ _ _ (by rw [calculate_dg_qtr_length]; omega),
    getD_map_of_lt _ _ _ (by rw [calculate_dg_qtr_length]; omega)]
  unfold np_trapz
  push_cast
  ring

/-- Helper: length of the variable-cost series is `(tot_qtrs - 1) + 1`. -/
theorem calculate_vc_qtr_length (cf : CashFlow) (f : ℕ → ℚ → ℚ → ℚ)
    (discounted : Bool) :
    (cf.calculate_vc_qtr f discounted).length = (cf.tot_qtrs - 1) + 1 := by
  simp [CashFlow.calculate_vc_qtr]

/-- C2 counterexample: at `tot_qtrs = 0` the variable-cost series is `[0]`,
of length 1, not `tot_qtrs = 0`. -/
theorem vc_length_counterexample :
    ¬ ((cfZero.calculate_vc_qtr cfZero.step false).length = cfZero.tot_qtrs) := by
  decide

/-- C2 (amended): for every CashFlow with `tot_qtrs ≥ 1` and every profile
function, the non-discounted variable-cost series has length `tot_qtrs`,
element 0 exactly 0, and element `n + 1` equal to
`(dgCost[n] + dgCost[n+1]) / 2` with
`dgCost[p] = -1 * unitScale * quantitySeries[p] * vc_per_dg`,
`unitScale = 10 ^ 6` (at `tot_qtrs = 0` the series is `[0]`, length 1). -/
theorem vc_trapezoid (cf : CashFlow) (f : ℕ → ℚ → ℚ → ℚ)
    (h1 : 1 ≤ cf.tot_qtrs) :
    (cf.calculate_vc_qtr f false).length = cf.tot_qtrs ∧
    (cf.calculate_vc_qtr f false).getD 0 0 = 0 ∧
    ∀ n, n + 1 < cf.tot_qtrs →
      (cf.calculate_vc_qtr f false).getD (n + 1) 0
        = (specDgCost cf f n + specDgCost cf f (n + 1)) / 2 := by
  refine ⟨?_, ?_, ?_⟩
  · rw [calculate_vc_qtr_length]
    omega
  · simp [CashFlow.calculate_vc_qtr]
  · intro n hn
    rw [calculate_vc_qtr_getD_succ cf f false n hn]
    unfold specDgCost unit_scale
    ring

/-- C2 witness: instantiated at `cfA`, step profile, interval (0, 1). -/
theorem vc_trapezoid_witness :
    (cfA.calculate_vc_qtr cfA.step false).getD 1 0
      = (specDgCost cfA cfA.step 0 + specDgCost cfA cfA.step 1) / 2 :=
  (vc_trapezoid cfA cfA.step (by decide)).2.2 0 (by decide)

/-- C3 counterexample: with stored quarterly rate 1 and a constant quantity,
element 1 of the discounted variable-cost series is -750000, while
discounting the integrated non-discounted element at index 1 gives -500000;
the two disagree, so discounting is NOT applied after integration. -/
theorem vc_discount_order_counterexample :
    ¬ ((cfC.calculate_vc_qtr cfC.step true).getD 1 0
        = discount ((cfC.calculate_vc_qtr cfC.step false).getD 1 0) cfC.discount_rate 1) := by
  simp [CashFlow.calculate_vc_qtr, CashFlow.calculate_dg_qtr, CashFlow.periods_index,
    CashFlow.step, CashFlow.discountedVal, discount, np_trapz, cfC, List.range_succ]
  norm_num

/-- C3 (amended): for every CashFlow, every profile function and every
period `n + 1 < tot_qtrs`, the discounted variable-cost element equals the
unit-width trapezoid of the quantity-cost samples each discounted at its own
absolute period index: discounting is applied to the samples before
integration, not to the integrated elements. -/
theorem vc_discount_before_integration (cf : CashFlow) (f : ℕ → ℚ → ℚ → ℚ)
    (n : ℕ) (h : n + 1 < cf.tot_qtrs) :
    (cf.calculate_vc_qtr f true).getD (n + 1) 0
      = (specDgCostDisc cf f n + specDgCostDisc cf f (n + 1)) / 2 := by
  rw [calculate_vc_qtr_getD_succ cf f true n h,
    calculate_dg_qtr_true_eq, calculate_dg_qtr_true_eq]
  unfold specDgCostDisc unit_scale
  ring

/-- C3 witness: instantiated at `cfC`, step profile, interval (0, 1). -/
theorem vc_discount_before_integration_witness :
    (cfC.calculate_vc_qtr cfC.step true).getD 1 0
      = (specDgCostDisc cfC cfC.step 0 + specDgCostDisc cfC cfC.step 1) / 2 :=
  vc_discount_before_integration cfC cfC.step 0 (by decide)

/-- Helper: folding `min` of lengths over lists that all have length `L`,
starting from `L`, yields `L`. -/
theorem foldl_min_of_all_eq (L : ℕ) :
    ∀ ls : List (List ℚ), (∀ l ∈ ls, l.length = L) →
      ls.foldl (fun acc l => min acc l.length) L = L := by
  intro ls
  induction ls with
  | nil => intro _; rfl
  | cons l ls ih =>
    intro h
    have hl : l.length = L := h l (List.mem_cons_self l ls)
    rw [List.foldl_cons, hl, Nat.min_self]
    exact ih (fun x hx => h x (List.mem_cons_of_mem l hx))

/-- C4: for a nonempty collection of flows whose selected series all have
the same length `L`, `combine_flows` returns a series of length `L` whose
element at every period `p < L` is the sum, across the flows, of that flow's
series at `p` (the two-flow elementwise sum is the instance
`flows = [f1, f2]`). -/
theorem combine_flows_elementwise {α : Type} (attr : α → List ℚ) (L : ℕ)
    (flows : List α) (hne : flows ≠ [])
    (hlen : ∀ fl ∈ flows, (attr fl).length = L) :
    (combine_flows flows attr).length = L ∧
    ∀ p, p < L → (combine_flows flows attr).getD p 0
        = (flows.map (fun fl => (attr fl).getD p 0)).sum := by
  match flows, hne with
  | a :: as, _ =>
    have hn : (as.map attr).foldl (fun acc l => min acc l.length) (attr a).length = L := by
      rw [hlen a (List.mem_cons_self a as)]
      refine foldl_min_of_all_eq L (as.map attr) ?_
      intro l hl
      rcases List.mem_map.mp hl with ⟨x, hx, rfl⟩
      exact hlen x (List.mem_cons_of_mem a hx)
    have hcf : combine_flows (a :: as) attr
        = (List.range L).map
            (fun i => ((attr a :: as.map attr).map (fun l => l.getD i 0)).sum) := by
      simp only [combine_flows, List.map_cons]
      rw [hn]
    rw [hcf]
    constructor
    · simp
    · intro p hp
      rw [getD_map_range, if_pos hp]
      simp only [List.map_cons, List.map_map, Function.comp_def]

/-- C4 witness: two flows of length 2, selector `id`, summed at period 1. -/
theorem combine_flows_elementwise_witness :
    (combine_flows [[(1 : ℚ), 2], [3, 4]] id).getD 1 0
      = (([[(1 : ℚ), 2], [3, 4]]).map (fun l => (id l).getD 1 0)).sum :=
  (combine_flows_elementwise id 2 [[1, 2], [3, 4]] (by decide)
    (by intro fl hfl; fin_cases hfl <;> rfl)).2 1 (by decide)

/-- C5: evaluating `combine_flows` on two flows whose series have lengths 3
and 2 returns the silently truncated sum `[5, 7]` of length 2 — no
length-mismatch error is raised and no error value is returned. -/
theorem combine_flows_truncates :
    combine_flows [[(1 : ℚ), 2, 3], [4, 5]] id = [5, 7] := by
  simp [combine_flows, List.range_succ]
  norm_num

/-- Constructor arguments used for the serialisation claims: annual
discount rate 4, an explicit flow id, and `vc_per_dg = 7`. -/
def argsD : CashFlowArgs :=
  { delay_qtrs := 1
    digital_gallons := 2
    discount_rate := 4
    is_cost := false
    max_amt := 10
    scale_up_qtrs := 3
    function := "linear"
    vc_per_dg := 7
    start_amt := 1
    name := "n"
    flow_id := some "fid"
    tot_qtrs := 5 }

/-- C6 counterexample: constructing from `argsD` (annual rate 4) and
serialising yields a `discount_rate` key of 1 (the stored quarterly rate),
not the rate 4 that was passed to the constructor. -/
theorem to_json_roundtrip_counterexample :
    (CashFlow.init argsD).toOption.map (fun cf => cf.to_json.discount_rate)
      ≠ some argsD.discount_rate := by
  simp [CashFlow.init, argsD, CashFlow.to_json, Except.toOption]

/-- C6 (amended): the record reproduces every constructor input except that
the `discount_rate` key holds the stored quarterly rate (the annual input
divided by 4) and `vc_per_dg` is not serialised at all (the record type has
no such key); an omitted `flow_id` serialises as the shared default.  No
derived series appears in the record, and serialisation is a pure function
of the instance, so serialising twice yields the same record. -/
theorem to_json_fields (a : CashFlowArgs) (cf : CashFlow)
    (h : CashFlow.init a = Except.ok cf) :
    cf.to_json.delay_qtrs = a.delay_qtrs ∧
    cf.to_json.digital_gallons = a.digital_gallons ∧
    cf.to_json.discount_rate = a.discount_rate / 4 ∧
    cf.to_json.flow_id = a.flow_id.getD defaultFlowId ∧
    cf.to_json.function = a.function ∧
    cf.to_json.is_cost = a.is_cost ∧
    cf.to_json.name = a.name ∧
    cf.to_json.start_amt = a.start_amt ∧
    cf.to_json.max_amt = a.max_amt ∧
    cf.to_json.scale_up_qtrs = a.scale_up_qtrs ∧
    cf.to_json.tot_qtrs = a.tot_qtrs := by
  unfold CashFlow.init at h
  split at h
  · simp at h
  · rw [Except.ok.injEq] at h
    subst h
    simp [CashFlow.to_json]

/-- The flow constructed from `argsD`: quarterly stored rate 1 = 4 / 4. -/
def cfD : CashFlow :=
  { delay_qtrs := 1
    digital_gallons := 2
    discount_rate := 1
    function := "linear"
    id := "fid"
    is_cost := false
    max_amt := 10
    name := "n"
    scale_up_qtrs := 3
    start_amt := 1
    vc_per_dg := 7
    tot_qtrs := 5 }

/-- C6 witness: instantiated at `argsD` and the flow `cfD` it constructs. -/
theorem to_json_fields_witness :
    cfD.to_json.delay_qtrs = argsD.delay_qtrs ∧
    cfD.to_json.digital_gallons = argsD.digital_gallons ∧
    cfD.to_json.discount_rate = argsD.discount_rate / 4 ∧
    cfD.to_json.flow_id = argsD.flow_id.getD defaultFlowId ∧
    cfD.to_json.function = argsD.function ∧
    cfD.to_json.is_cost = argsD.is_cost ∧
    cfD.to_json.name = argsD.name ∧
    cfD.to_json.start_amt = argsD.start_amt ∧
    cfD.to_json.max_amt = argsD.max_amt ∧
    cfD.to_json.scale_up_qtrs = argsD.scale_up_qtrs ∧
    cfD.to_json.tot_qtrs = argsD.tot_qtrs :=
  to_json_fields argsD cfD (by simp [CashFlow.init, argsD, cfD])

/-- First construction omitting `flow_id` (models `CashFlow(...)` with no
`flow_id` argument). -/
def argsE1 : CashFlowArgs :=
  { delay_qtrs := 0
    digital_gallons := 1
    discount_rate := 0
    is_cost := false
    max_amt := 1
    scale_up_qtrs := 0
    function := "step"
    vc_per_dg := 0
    name := "first" }

/-- Second, distinct construction also omitting `flow_id`. -/
def argsE2 : CashFlowArgs :=
  { delay_qtrs := 3
    digital_gallons := 2
    discount_rate := 1
    is_cost := true
    max_amt := 9
    scale_up_qtrs := 4
    function := "linear"
    vc_per_dg := 1
    name := "second" }

/-- C7: two separate constructions that both omit `flow_id` receive the SAME
id — the default `uuid.uuid4()` is evaluated once at definition time and
shared — so the ids are not distinct, contradicting the claim and the
constructor docstring ("A unique identifier for the cash flow"). -/
theorem default_flow_id_shared :
    ((CashFlow.init argsE1).toOption.map CashFlow.id) = some defaultFlowId ∧
    ((CashFlow.init argsE2).toOption.map CashFlow.id) = some defaultFlowId := by
  constructor <;> simp [CashFlow.init, argsE1, argsE2, Except.toOption]

/-- Arguments rejected by the constructor: non-step profile with
`scale_up_qtrs = 1 < 2`. -/
def argsBad : CashFlowArgs :=
  { delay_qtrs := 0
    digital_gallons := 1
    discount_rate := 0
    is_cost := false
    max_amt := 1
    scale_up_qtrs := 1
    function := "linear"
    vc_per_dg := 0 }

/-- C9: construction succeeds exactly when `function = "step"` or
`scale_up_qtrs ≥ 2`; in the rejected case the constructor raises the
configuration error before any series is computed (the model returns the
error value instead of an instance). -/
theorem scale_up_validation (a : CashFlowArgs) :
    ((∃ cf, CashFlow.init a = Except.ok cf)
        ↔ (a.function = "step" ∨ 2 ≤ a.scale_up_qtrs)) ∧
    (a.function ≠ "step" ∧ a.scale_up_qtrs < 2 →
      CashFlow.init a = Except.error "the total number of quarters must be at least one") := by
  unfold CashFlow.init
  constructor
  · constructor
    · rintro ⟨cf, hcf⟩
      by_contra hcon
      push_neg at hcon
      rw [if_pos ⟨hcon.1, by omega⟩] at hcf
      cases hcf
    · intro hor
      rw [if_neg]
      · exact ⟨_, rfl⟩
      · rintro ⟨hne, hlt⟩
        rcases hor with h | h
        · exact hne h
        · omega
  · rintro ⟨hne, hlt⟩
    rw [if_pos ⟨hne, hlt⟩]

/-- C9 witness: `argsBad` (linear, scale-up 1) is rejected with the
configuration error. -/
theorem scale_up_validation_witness :
    CashFlow.init argsBad = Except.error "the total number of quarters must be at least one" :=
  (scale_up_validation argsBad).2 (by decide)
